import Mathlib

/-!
Verification of the resumable image-build pipeline of `create_img.py` and its
helper modules (`lib/common.py`, `lib/system.py`).

The pipeline state is a JSON dictionary persisted in a `.status` file.  We
embed the dictionary as an association list with Python-dict semantics
(`dictInsert` updates in place or appends, `dictPop` removes a key), the
external world (command results, file reads, OS errors) as explicit
parameters, and `main()` as a function from that environment and the loaded
snapshot to an exit record carrying the exit code, the snapshots passed to
`save_status`, and the trace of external actions invoked.
-/

/-- A value stored in the status dictionary: the program stores only strings
(image file name, loop device path) and booleans (stage completion flags). -/
inductive SVal where
  | vStr : String → SVal
  | vBool : Bool → SVal
deriving DecidableEq, Repr

/-- The status dictionary: an insertion-ordered key-value mapping, as a
Python `dict` with string keys. -/
abbrev StatusDict := List (String × SVal)

/-- Keys of the dictionary, in insertion order (`dict.keys()`). -/
def dictKeys (st : StatusDict) : List String := st.map Prod.fst

/-- Lookup (`d[k]`), returning `none` when the key is absent. -/
def dictGet : StatusDict → String → Option SVal
  | [], _ => none
  | (k', v) :: rest, k => if k' = k then some v else dictGet rest k

/-- Assignment `d[k] = v`: replaces the value in place when the key exists,
otherwise appends the new entry (Python dict insertion-order semantics). -/
def dictInsert : StatusDict → String → SVal → StatusDict
  | [], k, v => [(k, v)]
  | (k', v') :: rest, k, v =>
      if k' = k then (k, v) :: rest else (k', v') :: dictInsert rest k v

/-- `d.pop(k)`: removes the entry for `k` (keys are unique in a dict). -/
def dictPop : StatusDict → String → StatusDict
  | [], _ => []
  | (k', v') :: rest, k => if k' = k then rest else (k', v') :: dictPop rest k

/-- A parsed JSON value, as far as the program inspects it: `json.load` can
return a dictionary or any other top-level JSON value; the code only ever
distinguishes dictionaries from everything else. -/
inductive JsonVal where
  | jdict : StatusDict → JsonVal
  | jlist : List SVal → JsonVal
  | jstr : String → JsonVal
  | jnum : Int → JsonVal
  | jbool : Bool → JsonVal
  | jnull : JsonVal
deriving DecidableEq, Repr

/-- The possible states of the status file as seen by `create_img.py`'s
`load_status`: the file is absent (`os.path.exists` is false), opening or
parsing it raised an exception, or it parsed to a JSON value. -/
inductive FileRead where
  | missing : FileRead
  | readError : FileRead
  | ok : JsonVal → FileRead
deriving DecidableEq, Repr

/-- Result of loading: the value obtained plus whether a warning was logged. -/
structure LoadResult where
  value : JsonVal
  warned : Bool
deriving DecidableEq, Repr

/-- `create_img.py` lines 67-82, `load_status`: returns `{}` when the file is
absent, catches any exception from `open`/`json.load` with a warning and
returns `{}`, and otherwise returns whatever JSON value was parsed (which
need not be a dictionary).  A merely missing file logs nothing. -/
def load_status : FileRead → LoadResult
  | .missing => ⟨.jdict [], false⟩
  | .readError => ⟨.jdict [], true⟩
  | .ok j => ⟨j, false⟩

/-- `create_img.py` lines 366-368, in `main`: if the loaded value is not a
dict, warn that the file is corrupted and start over with an empty dict. -/
def checkStatusType (j : JsonVal) : StatusDict × Bool :=
  match j with
  | .jdict d => (d, false)
  | _ => ([], true)

/-- The complete pipeline-start load: `load_status` followed by `main`'s
type check.  Returns the snapshot the run starts from and whether any
warning was logged along the way. -/
def pipelineLoad (fr : FileRead) : StatusDict × Bool :=
  let lr := load_status fr
  let (d, w) := checkStatusType lr.value
  (d, lr.warned || w)

/-- An exception raised by `json.loads` on unparsable text. -/
inductive JsonErr where
  | parseError : JsonErr
deriving DecidableEq, Repr

/-- `lib/common.py` lines 130-139, `load_status`: `read_file` yields the text
or `None`; when text was read it is passed to `json.loads`, whose exception
is NOT caught and so propagates to the caller; when reading failed the
function returns `None` (not an empty dict). -/
def common_load_status (readResult : Option String)
    (jsonLoads : String → Except JsonErr JsonVal) : Except JsonErr (Option JsonVal) :=
  match readResult with
  | some s => (jsonLoads s).map some
  | none => .ok none

/-- A write performed through `write_file`: target path and full contents. -/
structure WriteOp where
  path : String
  contents : String
deriving DecidableEq, Repr

/-- `lib/system.py` line 50. -/
def FILE_SSHD : String := "/etc/ssh/sshd_config"

/-- `lib/system.py` line 48. -/
def FILE_PASSWD : String := "/etc/shadow"

/-- `lib/system.py` lines 53-65, `configure_sshd`: reads the sshd config,
computes `re.sub(..., "PermitRootLogin yes", sshd_config)` WITHOUT binding
the result (the substitution, modelled by the opaque `sub` argument, is
discarded), and writes back the text it read.  When `read_file` returned
`None`, `re.sub` raises `TypeError`, modelled as `.error`.  On the success
path the result is the boolean from `write_file` plus the write performed. -/
def configure_sshd (sub : String → String) (readResult : Option String)
    (writeOk : Bool) : Except Unit (Bool × List WriteOp) :=
  match readResult with
  | none => .error ()
  | some sshd_config =>
      let _ := sub sshd_config
      .ok (writeOk, [⟨FILE_SSHD, sshd_config⟩])

/-- The `re.sub(r"(?<=^root:)\*(?=:)", hash, contents)` call in
`change_rootpw`: the pattern is anchored to the start of the string (no
MULTILINE flag), so it replaces the single `*` occurring right after a
leading `root:` and followed by `:`. -/
def shadowSub (hash contents : String) : String :=
  if contents.startsWith "root:*:" then
    "root:" ++ hash ++ contents.drop 6
  else contents

/- ### Chroot context manager and command executor (`lib/common.py`) -/

/-- The filesystem-related state of the process: the directory that is its
current filesystem root and its current working directory.  Directories are
identified by abstract ids. -/
structure ProcState where
  root : Nat
  cwd : Nat
deriving DecidableEq, Repr

/-- OS errors the modelled syscalls can raise. -/
inductive OsErr where
  | enoent : OsErr
  | eperm : OsErr
deriving DecidableEq, Repr

/-- `lib/common.py` lines 24-27, `Chroot.__enter__`:
`self._fs_root = os.open("/", os.O_RDONLY)` (a handle on the current root
directory), then `os.chdir(self._directory)` (raises `ENOENT` when the
target does not resolve, leaving the state unchanged), then
`os.chroot(self._directory)` (raises `EPERM` without the chroot capability
-- note the working directory has already been changed at that point).
`target` is the resolution of `self._directory`; on success the saved
root-handle id is returned alongside the new state. -/
def chrootEnter (canChroot : Bool) (target : Option Nat) (s : ProcState) :
    Except (OsErr × ProcState) (ProcState × Nat) :=
  let fd := s.root
  match target with
  | none => .error (.enoent, s)
  | some d =>
      let s1 : ProcState := { s with cwd := d }
      if canChroot then .ok ({ s1 with root := d }, fd)
      else .error (.eperm, s1)

/-- `lib/common.py` lines 29-35, `Chroot.__exit__`:
`os.fchdir(self._fs_root)` (cwd becomes the saved root directory),
`os.chroot(".")` (root becomes the current working directory),
`os.close(self._fs_root)`, `os.chdir(self._work_dir)` (back to the working
directory captured by `os.getcwd()` in `__init__`). -/
def chrootExit (workDir : Nat) (fd : Nat) (s : ProcState) : ProcState :=
  let s1 : ProcState := { s with cwd := fd }
  let s2 : ProcState := { s1 with root := s1.cwd }
  { s2 with cwd := workDir }

/-- `with Chroot(d): body` as used throughout the code: the manager is
constructed (capturing the current working directory) and entered
immediately.  `body` is an arbitrary state transformer together with a flag
recording whether it raised; Python runs `__exit__` on both normal and
exceptional exits of the body, and returns `False` from it, so a body
exception propagates after restoration.  If `__enter__` itself raises, the
body and `__exit__` never run.  Result: final state, the enter-time error if
any, and whether a body exception propagated. -/
def withChroot (canChroot : Bool) (target : Option Nat)
    (body : ProcState → ProcState × Bool) (s0 : ProcState) :
    ProcState × Option OsErr × Bool :=
  let workDir := s0.cwd
  match chrootEnter canChroot target s0 with
  | .error (e, sErr) => (sErr, some e, false)
  | .ok (s1, fd) =>
      let res := body s1
      (chrootExit workDir fd res.1, none, res.2)

/-- Outcome of `subprocess.run(cmd, shell=True, ...)`: with `shell=True` a
launch failure of the command itself (not found, permission denied) is
reported by the shell through a non-zero exit code, not an exception. -/
structure ProcResult where
  returncode : Int
  stdout : String
  stderr : String
deriving DecidableEq, Repr

/-- What `run_cmd` hands back to its caller: a boolean, or (when
`return_output` was requested) an optional captured output. -/
inductive RunCmdResult where
  | rBool : Bool → RunCmdResult
  | rOutput : Option String → RunCmdResult
deriving DecidableEq, Repr

/-- `lib/common.py` lines 106-117: the uniform result computed from the
completed process -- on non-zero exit, `None` (no partial output) or
`False`; on success, the stripped stdout or `True`. -/
def cmdSignal (proc : ProcResult) (return_output : Bool) : RunCmdResult :=
  if proc.returncode ≠ 0 then
    if return_output then .rOutput none else .rBool false
  else
    if return_output then .rOutput (some proc.stdout.trim) else .rBool true

/-- `lib/common.py` lines 79-117, `run_cmd`: when a non-empty `chroot` is
given the command runs inside `with Chroot(chroot)` -- an exception from
entering the chroot propagates out of `run_cmd` (modelled as `.error`);
otherwise the command runs directly and the call cannot raise.  `resolve`
models path resolution of the chroot directory and `proc` the completed
subprocess. -/
def runCmd (canChroot : Bool) (resolve : String → Option Nat) (s : ProcState)
    (proc : ProcResult) (return_output : Bool) (chroot : String) :
    Except OsErr (RunCmdResult × ProcState) :=
  if chroot ≠ "" then
    match chrootEnter canChroot (resolve chroot) s with
    | .error (e, _) => .error e
    | .ok (s1, fd) => .ok (cmdSignal proc return_output, chrootExit s.cwd fd s1)
  else
    .ok (cmdSignal proc return_output, s)

/-- `lib/system.py` lines 138-151, `change_rootpw`: reads `/etc/shadow`; if
the read succeeded, substitutes the root password hash (via `crypt.crypt`,
modelled by the opaque `cryptFn`) and returns the boolean from `write_file`;
if the read failed the function body falls through its `if` and implicitly
returns `None`, performing no write. -/
def change_rootpw (cryptFn : String → String) (passwd : String)
    (shadowRead : Option String) (writeOk : Bool) : Option Bool × List WriteOp :=
  match shadowRead with
  | some shadow_contents =>
      let shadow' := shadowSub (cryptFn passwd) shadow_contents
      (some writeOk, [⟨FILE_PASSWD, shadow'⟩])
  | none => (none, [])

/- ### The staged pipeline of `create_img.py`'s `main` (lines 357-481) -/

/-- External actions `main` can invoke, one per call site: the `dd` image
creation, `losetup` attach, format script, the two mounts, `debootstrap`,
the four configuration writers, the two unmounts and the `losetup -d`. -/
inductive StageAct where
  | createImg | loopCreate | format | mountRoot | mountBoot | deboot
  | cfgHostname | cfgLocale | cfgKeyboard | cfgApt
  | umountBoot | umountRoot | loopDel
deriving DecidableEq, Repr

/-- The thirteen pipeline stages of `main`, in source order.  The
`os.makedirs` call between `mount_root` and `mount_boot` is a setup step,
not a stage (it bypasses the stage machinery entirely). -/
inductive Stage where
  | imgFile | loopDev | loopFmt | mountRoot | mountBoot | deboot
  | cfgHost | cfgLocale | cfgKbd | cfgApt
  | umntBoot | umntRoot | loopDel
deriving DecidableEq, Repr, Fintype

/-- Position of a stage in the pipeline order. -/
def stageIdx : Stage → Nat
  | .imgFile => 0 | .loopDev => 1 | .loopFmt => 2 | .mountRoot => 3
  | .mountBoot => 4 | .deboot => 5 | .cfgHost => 6 | .cfgLocale => 7
  | .cfgKbd => 8 | .cfgApt => 9 | .umntBoot => 10 | .umntRoot => 11
  | .loopDel => 12

/-- The action a stage executes when it is not skipped. -/
def actOf : Stage → StageAct
  | .imgFile => .createImg | .loopDev => .loopCreate | .loopFmt => .format
  | .mountRoot => .mountRoot | .mountBoot => .mountBoot | .deboot => .deboot
  | .cfgHost => .cfgHostname | .cfgLocale => .cfgLocale
  | .cfgKbd => .cfgKeyboard | .cfgApt => .cfgApt
  | .umntBoot => .umountBoot | .umntRoot => .umountRoot | .loopDel => .loopDel

/-- The completion key a stage records in the status dict, when it has one.
Configuration and teardown stages record no key of their own. -/
def stageKey : Stage → Option String
  | .imgFile => some "img_file"
  | .loopDev => some "loop_dev"
  | .loopFmt => some "loop_dev_fmt"
  | .mountRoot => some "mount_root"
  | .mountBoot => some "mount_boot"
  | .deboot => some "debootstrap"
  | _ => none

/-- Outcomes of the external world for one run: success/failure of each
action call site (the loop-device creation yields the device path or fails),
plus whether `os.makedirs("/mnt/boot/firmware", ...)` succeeds. -/
structure RunEnv where
  createImgOk : Bool
  loopDevCreate : Option String
  formatOk : Bool
  mountRootOk : Bool
  makedirsOk : Bool
  mountBootOk : Bool
  debootstrapOk : Bool
  cfgHostnameOk : Bool
  cfgLocaleOk : Bool
  cfgKeyboardOk : Bool
  cfgAptOk : Bool
  umountBootOk : Bool
  umountRootOk : Bool
  loopDelOk : Bool
deriving DecidableEq, Repr

/-- In-flight state of a run: the in-memory `new_status` dict and the trace
of actions executed so far. -/
structure PipeSt where
  new : StatusDict
  trace : List StageAct
deriving DecidableEq, Repr

/-- Observable outcome of a run of `main`: the returned exit code, the list
of snapshots passed to `save_status` (in order), the action trace, which
stage's failure ended the run (if any), and whether the run was aborted by
the `os.makedirs` failure path (which returns 1 without saving). -/
structure RunOut where
  code : Nat
  saves : List StatusDict
  trace : List StageAct
  failed : Option Stage
  mkdirFailed : Bool
deriving DecidableEq, Repr

/-- `create_img.py` line 364: `override = False` (a constant in `main`). -/
def override : Bool := false

/-- `create_img.py` lines 102-111, `exit_script`: saves the given status
dict and returns the status code. -/
def exit_script (code : Nat) (s : PipeSt) (st : Option Stage) : RunOut :=
  { code := code, saves := [s.new], trace := s.trace, failed := st,
    mkdirFailed := false }

/-- Lines 371-380: the `img_file` stage.  When `not override` and the key is
in the OLD snapshot, reuse the recorded file name without running `dd`;
otherwise create `test.img` via `create_imgfile` and exit with code 1 on
failure.  Either way `new_status["img_file"]` is then set. -/
def stImgFile (env : RunEnv) (old : StatusDict) (s : PipeSt) :
    Except RunOut (PipeSt × SVal) :=
  if override = false ∧ "img_file" ∈ dictKeys old then
    let v := (dictGet old "img_file").getD (.vStr "")
    .ok (⟨dictInsert s.new "img_file" v, s.trace⟩, v)
  else
    let s' : PipeSt := ⟨s.new, s.trace ++ [StageAct.createImg]⟩
    if env.createImgOk then
      let v := SVal.vStr "test.img"
      .ok (⟨dictInsert s'.new "img_file" v, s'.trace⟩, v)
    else .error (exit_script 1 s' (some .imgFile))

/-- Lines 382-394: the `loop_dev` stage.  Skip on recorded key, otherwise
attach the image via `losetup` (`img_file_to_loop_dev`), exiting with code 1
when that returns `None`.  Then `new_status["loop_dev"]` is set. -/
def stLoopDev (env : RunEnv) (old : StatusDict) (s : PipeSt) :
    Except RunOut (PipeSt × SVal) :=
  if override = false ∧ "loop_dev" ∈ dictKeys old then
    let v := (dictGet old "loop_dev").getD (.vStr "")
    .ok (⟨dictInsert s.new "loop_dev" v, s.trace⟩, v)
  else
    let s' : PipeSt := ⟨s.new, s.trace ++ [StageAct.loopCreate]⟩
    match env.loopDevCreate with
    | none => .error (exit_script 1 s' (some .loopDev))
    | some d =>
        let v := SVal.vStr d
        .ok (⟨dictInsert s'.new "loop_dev" v, s'.trace⟩, v)

/-- Lines 399-406: the `loop_dev_fmt` stage.  Runs `format_loop_dev` only
when `not override` and the key is NOT in the old snapshot; afterwards
`new_status["loop_dev_fmt"] = True` in both branches. -/
def stLoopFmt (env : RunEnv) (old : StatusDict) (s : PipeSt) :
    Except RunOut PipeSt :=
  if override = false ∧ "loop_dev_fmt" ∉ dictKeys old then
    let s' : PipeSt := ⟨s.new, s.trace ++ [StageAct.format]⟩
    if env.formatOk then .ok ⟨dictInsert s'.new "loop_dev_fmt" (.vBool true), s'.trace⟩
    else .error (exit_script 1 s' (some .loopFmt))
  else .ok ⟨dictInsert s.new "loop_dev_fmt" (.vBool true), s.trace⟩

/-- Lines 408-415: the `mount_root` stage (no `override` in its guard). -/
def stMountRoot (env : RunEnv) (old : StatusDict) (s : PipeSt) :
    Except RunOut PipeSt :=
  if "mount_root" ∉ dictKeys old then
    let s' : PipeSt := ⟨s.new, s.trace ++ [StageAct.mountRoot]⟩
    if env.mountRootOk then .ok ⟨dictInsert s'.new "mount_root" (.vBool true), s'.trace⟩
    else .error (exit_script 1 s' (some .mountRoot))
  else .ok ⟨dictInsert s.new "mount_root" (.vBool true), s.trace⟩

/-- Lines 417-421: `os.makedirs("/mnt/boot/firmware", ...)`; on `OSError`
the run returns 1 directly, WITHOUT calling `exit_script`, so nothing is
saved on this path. -/
def stMakeDirs (env : RunEnv) (s : PipeSt) : Except RunOut PipeSt :=
  if env.makedirsOk then .ok s
  else .error { code := 1, saves := [], trace := s.trace, failed := none,
                mkdirFailed := true }

/-- Lines 423-430: the `mount_boot` stage (no `override` in its guard). -/
def stMountBoot (env : RunEnv) (old : StatusDict) (s : PipeSt) :
    Except RunOut PipeSt :=
  if "mount_boot" ∉ dictKeys old then
    let s' : PipeSt := ⟨s.new, s.trace ++ [StageAct.mountBoot]⟩
    if env.mountBootOk then .ok ⟨dictInsert s'.new "mount_boot" (.vBool true), s'.trace⟩
    else .error (exit_script 1 s' (some .mountBoot))
  else .ok ⟨dictInsert s.new "mount_boot" (.vBool true), s.trace⟩

/-- Lines 432-439: the `debootstrap` stage. -/
def stDeboot (env : RunEnv) (old : StatusDict) (s : PipeSt) :
    Except RunOut PipeSt :=
  if override = false ∧ "debootstrap" ∉ dictKeys old then
    let s' : PipeSt := ⟨s.new, s.trace ++ [StageAct.deboot]⟩
    if env.debootstrapOk then .ok ⟨dictInsert s'.new "debootstrap" (.vBool true), s'.trace⟩
    else .error (exit_script 1 s' (some .deboot))
  else .ok ⟨dictInsert s.new "debootstrap" (.vBool true), s.trace⟩

/-- Lines 441-452: each configuration step always runs its writer and exits
with code 1 on failure; no completion key is recorded. -/
def stCfg (act : StageAct) (stg : Stage) (ok : Bool) (s : PipeSt) :
    Except RunOut PipeSt :=
  let s' : PipeSt := ⟨s.new, s.trace ++ [act]⟩
  if ok then .ok s' else .error (exit_script 1 s' (some stg))

/-- Lines 454-473: each teardown step always runs; on success it pops the
corresponding transient key from `new_status` when present. -/
def stTeardown (act : StageAct) (stg : Stage) (ok : Bool) (key : String)
    (s : PipeSt) : Except RunOut PipeSt :=
  let s' : PipeSt := ⟨s.new, s.trace ++ [act]⟩
  if ok then
    .ok ⟨if key ∈ dictKeys s'.new then dictPop s'.new key else s'.new, s'.trace⟩
  else .error (exit_script 1 s' (some stg))

/-- Lines 477-481: if no new statuses were recorded, fall back to the old
snapshot; then save and return 0. -/
def finishRun (old : StatusDict) (s : PipeSt) : RunOut :=
  let final := if (dictKeys s.new).length = 0 then old else s.new
  { code := 0, saves := [final], trace := s.trace, failed := none,
    mkdirFailed := false }

/-- Lines 468-481: the run from the `loop_dev` deletion stage onward. -/
def runFromLoopDel (env : RunEnv) (old : StatusDict) (s : PipeSt) : RunOut :=
  match stTeardown .loopDel .loopDel env.loopDelOk "loop_dev" s with
  | .error r => r
  | .ok s => finishRun old s

/-- Lines 461-466: the run from the `umount_root` stage onward. -/
def runFromUmntRoot (env : RunEnv) (old : StatusDict) (s : PipeSt) : RunOut :=
  match stTeardown .umountRoot .umntRoot env.umountRootOk "mount_root" s with
  | .error r => r
  | .ok s => runFromLoopDel env old s

/-- Lines 454-459: the run from the `umount_boot` stage onward. -/
def runFromUmntBoot (env : RunEnv) (old : StatusDict) (s : PipeSt) : RunOut :=
  match stTeardown .umountBoot .umntBoot env.umountBootOk "mount_boot" s with
  | .error r => r
  | .ok s => runFromUmntRoot env old s

/-- Lines 451-452: the run from the apt configuration onward. -/
def runFromCfgApt (env : RunEnv) (old : StatusDict) (s : PipeSt) : RunOut :=
  match stCfg .cfgApt .cfgApt env.cfgAptOk s with
  | .error r => r
  | .ok s => runFromUmntBoot env old s

/-- Lines 448-449: the run from the keyboard configuration onward. -/
def runFromCfgKbd (env : RunEnv) (old : StatusDict) (s : PipeSt) : RunOut :=
  match stCfg .cfgKeyboard .cfgKbd env.cfgKeyboardOk s with
  | .error r => r
  | .ok s => runFromCfgApt env old s

/-- Lines 445-446: the run from the locale configuration onward. -/
def runFromCfgLocale (env : RunEnv) (old : StatusDict) (s : PipeSt) : RunOut :=
  match stCfg .cfgLocale .cfgLocale env.cfgLocaleOk s with
  | .error r => r
  | .ok s => runFromCfgKbd env old s

/-- Lines 442-443: the run from the hostname configuration onward. -/
def runFromCfgHost (env : RunEnv) (old : StatusDict) (s : PipeSt) : RunOut :=
  match stCfg .cfgHostname .cfgHost env.cfgHostnameOk s with
  | .error r => r
  | .ok s => runFromCfgLocale env old s

/-- Lines 432-439: the run from the `debootstrap` stage onward. -/
def runFromDeboot (env : RunEnv) (old : StatusDict) (s : PipeSt) : RunOut :=
  match stDeboot env old s with
  | .error r => r
  | .ok s => runFromCfgHost env old s

/-- Lines 423-430: the run from the `mount_boot` stage onward. -/
def runFromMountBoot (env : RunEnv) (old : StatusDict) (s : PipeSt) : RunOut :=
  match stMountBoot env old s with
  | .error r => r
  | .ok s => runFromDeboot env old s

/-- Lines 417-421: the run from the `os.makedirs` setup step onward. -/
def runFromMakeDirs (env : RunEnv) (old : StatusDict) (s : PipeSt) : RunOut :=
  match stMakeDirs env s with
  | .error r => r
  | .ok s => runFromMountBoot env old s

/-- Lines 408-415: the run from the `mount_root` stage onward. -/
def runFromMountRoot (env : RunEnv) (old : StatusDict) (s : PipeSt) : RunOut :=
  match stMountRoot env old s with
  | .error r => r
  | .ok s => runFromMakeDirs env old s

/-- Lines 399-406: the run from the `loop_dev_fmt` stage onward. -/
def runFromLoopFmt (env : RunEnv) (old : StatusDict) (s : PipeSt) : RunOut :=
  match stLoopFmt env old s with
  | .error r => r
  | .ok s => runFromMountRoot env old s

/-- Lines 382-394: the run from the `loop_dev` stage onward. -/
def runFromLoopDev (env : RunEnv) (old : StatusDict) (s : PipeSt) : RunOut :=
  match stLoopDev env old s with
  | .error r => r
  | .ok (s, _loop_dev) => runFromLoopFmt env old s

/-- `create_img.py` `main`, lines 357-481, after the snapshot has been
loaded and type-checked: the thirteen stages in source order, with the
`os.makedirs` setup step between `mount_root` and `mount_boot`. -/
def runMain (env : RunEnv) (old : StatusDict) : RunOut :=
  match stImgFile env old ⟨[], []⟩ with
  | .error r => r
  | .ok (s, _img_file) => runFromLoopDev env old s

/-- A full run of `main` starting from the status file in state `fr`. -/
def mainRun (env : RunEnv) (fr : FileRead) : RunOut :=
  runMain env (pipelineLoad fr).1

/- ### Characterization of the run of `main` -/

/-- Keys present in `new_status` at the moment a given stage fails (all
stages completed or skipped before it record their keys; teardown stages
that succeeded before it have popped theirs). -/
def upKeys : Stage → List String
  | .imgFile => []
  | .loopDev => ["img_file"]
  | .loopFmt => ["img_file", "loop_dev"]
  | .mountRoot => ["img_file", "loop_dev", "loop_dev_fmt"]
  | .mountBoot => ["img_file", "loop_dev", "loop_dev_fmt", "mount_root"]
  | .deboot => ["img_file", "loop_dev", "loop_dev_fmt", "mount_root", "mount_boot"]
  | .cfgHost | .cfgLocale | .cfgKbd | .cfgApt | .umntBoot =>
      ["img_file", "loop_dev", "loop_dev_fmt", "mount_root", "mount_boot", "debootstrap"]
  | .umntRoot => ["img_file", "loop_dev", "loop_dev_fmt", "mount_root", "debootstrap"]
  | .loopDel => ["img_file", "loop_dev", "loop_dev_fmt", "debootstrap"]

/-- Actions that can have been invoked by the time a given stage has run
(its own action included). -/
def actsUpTo : Stage → List StageAct
  | .imgFile => [.createImg]
  | .loopDev => [.createImg, .loopCreate]
  | .loopFmt => [.createImg, .loopCreate, .format]
  | .mountRoot => [.createImg, .loopCreate, .format, .mountRoot]
  | .mountBoot => [.createImg, .loopCreate, .format, .mountRoot, .mountBoot]
  | .deboot => [.createImg, .loopCreate, .format, .mountRoot, .mountBoot, .deboot]
  | .cfgHost => [.createImg, .loopCreate, .format, .mountRoot, .mountBoot, .deboot,
      .cfgHostname]
  | .cfgLocale => [.createImg, .loopCreate, .format, .mountRoot, .mountBoot, .deboot,
      .cfgHostname, .cfgLocale]
  | .cfgKbd => [.createImg, .loopCreate, .format, .mountRoot, .mountBoot, .deboot,
      .cfgHostname, .cfgLocale, .cfgKeyboard]
  | .cfgApt => [.createImg, .loopCreate, .format, .mountRoot, .mountBoot, .deboot,
      .cfgHostname, .cfgLocale, .cfgKeyboard, .cfgApt]
  | .umntBoot => [.createImg, .loopCreate, .format, .mountRoot, .mountBoot, .deboot,
      .cfgHostname, .cfgLocale, .cfgKeyboard, .cfgApt, .umountBoot]
  | .umntRoot => [.createImg, .loopCreate, .format, .mountRoot, .mountBoot, .deboot,
      .cfgHostname, .cfgLocale, .cfgKeyboard, .cfgApt, .umountBoot, .umountRoot]
  | .loopDel => [.createImg, .loopCreate, .format, .mountRoot, .mountBoot, .deboot,
      .cfgHostname, .cfgLocale, .cfgKeyboard, .cfgApt, .umountBoot, .umountRoot, .loopDel]

/-- The resume property of a trace: an action whose stage key is recorded in
the loaded snapshot is never invoked. -/
def TraceOK (old : StatusDict) (tr : List StageAct) : Prop :=
  ("img_file" ∈ dictKeys old → StageAct.createImg ∉ tr) ∧
  ("loop_dev" ∈ dictKeys old → StageAct.loopCreate ∉ tr) ∧
  ("loop_dev_fmt" ∈ dictKeys old → StageAct.format ∉ tr) ∧
  ("mount_root" ∈ dictKeys old → StageAct.mountRoot ∉ tr) ∧
  ("mount_boot" ∈ dictKeys old → StageAct.mountBoot ∉ tr) ∧
  ("debootstrap" ∈ dictKeys old → StageAct.deboot ∉ tr)

/-- The three possible shapes of a run's outcome: failed at a stage (code 1,
exactly one save whose keys are determined by the failing stage, trace
limited to the actions up to that stage); aborted by the makedirs failure
(code 1 and NO save); or fully successful (code 0, exactly one save holding
the image-file entry and the two steady completion flags). -/
def GoodOutcome (env : RunEnv) (old : StatusDict) (r : RunOut) : Prop :=
  (∃ k : Stage, r.failed = some k ∧ r.code = 1 ∧ r.mkdirFailed = false ∧
     (∃ st, r.saves = [st] ∧ dictKeys st = upKeys k) ∧ r.trace ⊆ actsUpTo k)
  ∨ (r.failed = none ∧ r.mkdirFailed = true ∧ r.code = 1 ∧ r.saves = [] ∧
      env.makedirsOk = false)
  ∨ (r.failed = none ∧ r.mkdirFailed = false ∧ r.code = 0 ∧
     ∃ v, r.saves = [[("img_file", v), ("loop_dev_fmt", SVal.vBool true),
                      ("debootstrap", SVal.vBool true)]] ∧
       ("img_file" ∈ dictKeys old → v = (dictGet old "img_file").getD (SVal.vStr "")))

lemma not_mem_of_subset_single {α : Type} [DecidableEq α] {t : List α} {a b : α}
    (hs : t ⊆ [a]) (hne : b ≠ a) : b ∉ t :=
  fun hmem => hne (List.mem_singleton.mp (hs hmem))

lemma traceOK_nil (old : StatusDict) : TraceOK old [] := by
  refine ⟨?_, ?_, ?_, ?_, ?_, ?_⟩ <;> intro _ h <;> simp at h

lemma traceOK_append {old : StatusDict} {t1 t2 : List StageAct}
    (h1 : TraceOK old t1) (h2 : TraceOK old t2) : TraceOK old (t1 ++ t2) := by
  obtain ⟨a1, b1, c1, d1, e1, f1⟩ := h1
  obtain ⟨a2, b2, c2, d2, e2, f2⟩ := h2
  refine ⟨fun hm => ?_, fun hm => ?_, fun hm => ?_, fun hm => ?_, fun hm => ?_,
    fun hm => ?_⟩ <;> simp only [List.mem_append, not_or]
  exacts [⟨a1 hm, a2 hm⟩, ⟨b1 hm, b2 hm⟩, ⟨c1 hm, c2 hm⟩, ⟨d1 hm, d2 hm⟩,
    ⟨e1 hm, e2 hm⟩, ⟨f1 hm, f2 hm⟩]

lemma traceOK_createImg {old : StatusDict} {t : List StageAct}
    (hs : t ⊆ [StageAct.createImg]) (hk : "img_file" ∈ dictKeys old → t = []) :
    TraceOK old t := by
  refine ⟨fun hm => ?_, fun _ => not_mem_of_subset_single hs (by decide),
    fun _ => not_mem_of_subset_single hs (by decide),
    fun _ => not_mem_of_subset_single hs (by decide),
    fun _ => not_mem_of_subset_single hs (by decide),
    fun _ => not_mem_of_subset_single hs (by decide)⟩
  rw [hk hm]; exact List.not_mem_nil _

lemma traceOK_loopCreate {old : StatusDict} {t : List StageAct}
    (hs : t ⊆ [StageAct.loopCreate]) (hk : "loop_dev" ∈ dictKeys old → t = []) :
    TraceOK old t := by
  refine ⟨fun _ => not_mem_of_subset_single hs (by decide), fun hm => ?_,
    fun _ => not_mem_of_subset_single hs (by decide),
    fun _ => not_mem_of_subset_single hs (by decide),
    fun _ => not_mem_of_subset_single hs (by decide),
    fun _ => not_mem_of_subset_single hs (by decide)⟩
  rw [hk hm]; exact List.not_mem_nil _

lemma traceOK_format {old : StatusDict} {t : List StageAct}
    (hs : t ⊆ [StageAct.format]) (hk : "loop_dev_fmt" ∈ dictKeys old → t = []) :
    TraceOK old t := by
  refine ⟨fun _ => not_mem_of_subset_single hs (by decide),
    fun _ => not_mem_of_subset_single hs (by decide), fun hm => ?_,
    fun _ => not_mem_of_subset_single hs (by decide),
    fun _ => not_mem_of_subset_single hs (by decide),
    fun _ => not_mem_of_subset_single hs (by decide)⟩
  rw [hk hm]; exact List.not_mem_nil _

lemma traceOK_mountRoot {old : StatusDict} {t : List StageAct}
    (hs : t ⊆ [StageAct.mountRoot]) (hk : "mount_root" ∈ dictKeys old → t = []) :
    TraceOK old t := by
  refine ⟨fun _ => not_mem_of_subset_single hs (by decide),
    fun _ => not_mem_of_subset_single hs (by decide),
    fun _ => not_mem_of_subset_single hs (by decide), fun hm => ?_,
    fun _ => not_mem_of_subset_single hs (by decide),
    fun _ => not_mem_of_subset_single hs (by decide)⟩
  rw [hk hm]; exact List.not_mem_nil _

lemma traceOK_mountBoot {old : StatusDict} {t : List StageAct}
    (hs : t ⊆ [StageAct.mountBoot]) (hk : "mount_boot" ∈ dictKeys old → t = []) :
    TraceOK old t := by
  refine ⟨fun _ => not_mem_of_subset_single hs (by decide),
    fun _ => not_mem_of_subset_single hs (by decide),
    fun _ => not_mem_of_subset_single hs (by decide),
    fun _ => not_mem_of_subset_single hs (by decide), fun hm => ?_,
    fun _ => not_mem_of_subset_single hs (by decide)⟩
  rw [hk hm]; exact List.not_mem_nil _

lemma traceOK_deboot {old : StatusDict} {t : List StageAct}
    (hs : t ⊆ [StageAct.deboot]) (hk : "debootstrap" ∈ dictKeys old → t = []) :
    TraceOK old t := by
  refine ⟨fun _ => not_mem_of_subset_single hs (by decide),
    fun _ => not_mem_of_subset_single hs (by decide),
    fun _ => not_mem_of_subset_single hs (by decide),
    fun _ => not_mem_of_subset_single hs (by decide),
    fun _ => not_mem_of_subset_single hs (by decide), fun hm => ?_⟩
  rw [hk hm]; exact List.not_mem_nil _

lemma traceOK_other {old : StatusDict} {t : List StageAct} {a : StageAct}
    (hs : t ⊆ [a])
    (ha : a ≠ StageAct.createImg ∧ a ≠ StageAct.loopCreate ∧ a ≠ StageAct.format ∧
      a ≠ StageAct.mountRoot ∧ a ≠ StageAct.mountBoot ∧ a ≠ StageAct.deboot) :
    TraceOK old t :=
  ⟨fun _ => not_mem_of_subset_single hs (Ne.symm ha.1),
   fun _ => not_mem_of_subset_single hs (Ne.symm ha.2.1),
   fun _ => not_mem_of_subset_single hs (Ne.symm ha.2.2.1),
   fun _ => not_mem_of_subset_single hs (Ne.symm ha.2.2.2.1),
   fun _ => not_mem_of_subset_single hs (Ne.symm ha.2.2.2.2.1),
   fun _ => not_mem_of_subset_single hs (Ne.symm ha.2.2.2.2.2)⟩

lemma stImgFile_char (env : RunEnv) (old : StatusDict) (s : PipeSt) :
    (∃ v t, stImgFile env old s = .ok (⟨dictInsert s.new "img_file" v, s.trace ++ t⟩, v)
      ∧ t ⊆ [StageAct.createImg]
      ∧ ("img_file" ∈ dictKeys old →
          t = [] ∧ v = (dictGet old "img_file").getD (SVal.vStr "")))
  ∨ (stImgFile env old s =
        .error (exit_script 1 ⟨s.new, s.trace ++ [StageAct.createImg]⟩ (some .imgFile))
      ∧ "img_file" ∉ dictKeys old ∧ env.createImgOk = false) := by
  by_cases hm : "img_file" ∈ dictKeys old
  · left
    exact ⟨(dictGet old "img_file").getD (SVal.vStr ""), [],
      by simp [stImgFile, override, hm], by simp, fun _ => ⟨rfl, rfl⟩⟩
  · cases hc : env.createImgOk
    · right
      exact ⟨by simp [stImgFile, override, hm, hc], hm, rfl⟩
    · left
      exact ⟨SVal.vStr "test.img", [StageAct.createImg],
        by simp [stImgFile, override, hm, hc], by simp, fun h => absurd h hm⟩

lemma stLoopDev_char (env : RunEnv) (old : StatusDict) (s : PipeSt) :
    (∃ v t, stLoopDev env old s = .ok (⟨dictInsert s.new "loop_dev" v, s.trace ++ t⟩, v)
      ∧ t ⊆ [StageAct.loopCreate] ∧ ("loop_dev" ∈ dictKeys old → t = []))
  ∨ (stLoopDev env old s =
        .error (exit_script 1 ⟨s.new, s.trace ++ [StageAct.loopCreate]⟩ (some .loopDev))
      ∧ "loop_dev" ∉ dictKeys old ∧ env.loopDevCreate = none) := by
  by_cases hm : "loop_dev" ∈ dictKeys old
  · left
    exact ⟨(dictGet old "loop_dev").getD (SVal.vStr ""), [],
      by simp [stLoopDev, override, hm], by simp, fun _ => rfl⟩
  · cases hc : env.loopDevCreate with
    | none =>
        right
        exact ⟨by simp [stLoopDev, override, hm, hc], hm, rfl⟩
    | some d =>
        left
        exact ⟨SVal.vStr d, [StageAct.loopCreate],
          by simp [stLoopDev, override, hm, hc], by simp, fun h => absurd h hm⟩

lemma stLoopFmt_char (env : RunEnv) (old : StatusDict) (s : PipeSt) :
    (∃ t, stLoopFmt env old s = .ok ⟨dictInsert s.new "loop_dev_fmt" (.vBool true), s.trace ++ t⟩
      ∧ t ⊆ [StageAct.format] ∧ ("loop_dev_fmt" ∈ dictKeys old → t = []))
  ∨ (stLoopFmt env old s =
        .error (exit_script 1 ⟨s.new, s.trace ++ [StageAct.format]⟩ (some .loopFmt))
      ∧ "loop_dev_fmt" ∉ dictKeys old ∧ env.formatOk = false) := by
  by_cases hm : "loop_dev_fmt" ∈ dictKeys old
  · left
    exact ⟨[], by simp [stLoopFmt, override, hm], by simp, fun _ => rfl⟩
  · cases hf : env.formatOk
    · right
      exact ⟨by simp [stLoopFmt, override, hm, hf], hm, rfl⟩
    · left
      exact ⟨[StageAct.format], by simp [stLoopFmt, override, hm, hf], by simp,
        fun h => absurd h hm⟩

lemma stMountRoot_char (env : RunEnv) (old : StatusDict) (s : PipeSt) :
    (∃ t, stMountRoot env old s = .ok ⟨dictInsert s.new "mount_root" (.vBool true), s.trace ++ t⟩
      ∧ t ⊆ [StageAct.mountRoot] ∧ ("mount_root" ∈ dictKeys old → t = []))
  ∨ (stMountRoot env old s =
        .error (exit_script 1 ⟨s.new, s.trace ++ [StageAct.mountRoot]⟩ (some .mountRoot))
      ∧ "mount_root" ∉ dictKeys old ∧ env.mountRootOk = false) := by
  by_cases hm : "mount_root" ∈ dictKeys old
  · left
    exact ⟨[], by simp [stMountRoot, hm], by simp, fun _ => rfl⟩
  · cases hf : env.mountRootOk
    · right
      exact ⟨by simp [stMountRoot, hm, hf], hm, rfl⟩
    · left
      exact ⟨[StageAct.mountRoot], by simp [stMountRoot, hm, hf], by simp,
        fun h => absurd h hm⟩

lemma stMakeDirs_char (env : RunEnv) (s : PipeSt) :
    (stMakeDirs env s = .ok s ∧ env.makedirsOk = true)
  ∨ (stMakeDirs env s = .error ⟨1, [], s.trace, none, true⟩
      ∧ env.makedirsOk = false) := by
  cases h : env.makedirsOk
  · right; exact ⟨by simp [stMakeDirs, h], rfl⟩
  · left; exact ⟨by simp [stMakeDirs, h], rfl⟩

lemma stMountBoot_char (env : RunEnv) (old : StatusDict) (s : PipeSt) :
    (∃ t, stMountBoot env old s = .ok ⟨dictInsert s.new "mount_boot" (.vBool true), s.trace ++ t⟩
      ∧ t ⊆ [StageAct.mountBoot] ∧ ("mount_boot" ∈ dictKeys old → t = []))
  ∨ (stMountBoot env old s =
        .error (exit_script 1 ⟨s.new, s.trace ++ [StageAct.mountBoot]⟩ (some .mountBoot))
      ∧ "mount_boot" ∉ dictKeys old ∧ env.mountBootOk = false) := by
  by_cases hm : "mount_boot" ∈ dictKeys old
  · left
    exact ⟨[], by simp [stMountBoot, hm], by simp, fun _ => rfl⟩
  · cases hf : env.mountBootOk
    · right
      exact ⟨by simp [stMountBoot, hm, hf], hm, rfl⟩
    · left
      exact ⟨[StageAct.mountBoot], by simp [stMountBoot, hm, hf], by simp,
        fun h => absurd h hm⟩

lemma stDeboot_char (env : RunEnv) (old : StatusDict) (s : PipeSt) :
    (∃ t, stDeboot env old s = .ok ⟨dictInsert s.new "debootstrap" (.vBool true), s.trace ++ t⟩
      ∧ t ⊆ [StageAct.deboot] ∧ ("debootstrap" ∈ dictKeys old → t = []))
  ∨ (stDeboot env old s =
        .error (exit_script 1 ⟨s.new, s.trace ++ [StageAct.deboot]⟩ (some .deboot))
      ∧ "debootstrap" ∉ dictKeys old ∧ env.debootstrapOk = false) := by
  by_cases hm : "debootstrap" ∈ dictKeys old
  · left
    exact ⟨[], by simp [stDeboot, override, hm], by simp, fun _ => rfl⟩
  · cases hf : env.debootstrapOk
    · right
      exact ⟨by simp [stDeboot, override, hm, hf], hm, rfl⟩
    · left
      exact ⟨[StageAct.deboot], by simp [stDeboot, override, hm, hf], by simp,
        fun h => absurd h hm⟩

lemma stCfg_char (act : StageAct) (stg : Stage) (ok : Bool) (s : PipeSt) :
    (stCfg act stg ok s = .ok ⟨s.new, s.trace ++ [act]⟩ ∧ ok = true)
  ∨ (stCfg act stg ok s = .error (exit_script 1 ⟨s.new, s.trace ++ [act]⟩ (some stg))
      ∧ ok = false) := by
  cases ok
  · right; exact ⟨by simp [stCfg], rfl⟩
  · left; exact ⟨by simp [stCfg], rfl⟩

lemma stTeardown_char (act : StageAct) (stg : Stage) (ok : Bool) (key : String) (s : PipeSt) :
    (stTeardown act stg ok key s =
        .ok ⟨if key ∈ dictKeys s.new then dictPop s.new key else s.new, s.trace ++ [act]⟩
      ∧ ok = true)
  ∨ (stTeardown act stg ok key s =
        .error (exit_script 1 ⟨s.new, s.trace ++ [act]⟩ (some stg)) ∧ ok = false) := by
  cases ok
  · right; exact ⟨by simp [stTeardown], rfl⟩
  · left; exact ⟨by simp [stTeardown], rfl⟩

lemma runFromLoopDel_good (env : RunEnv) (old : StatusDict) (s : PipeSt) (v w : SVal)
    (hNew : s.new = [("img_file", v), ("loop_dev", w), ("loop_dev_fmt", SVal.vBool true),
      ("debootstrap", SVal.vBool true)])
    (hv : "img_file" ∈ dictKeys old → v = (dictGet old "img_file").getD (SVal.vStr ""))
    (hT : TraceOK old s.trace) (hS : s.trace ⊆ actsUpTo .umntRoot) :
    TraceOK old (runFromLoopDel env old s).trace ∧
      GoodOutcome env old (runFromLoopDel env old s) := by
  rcases stTeardown_char .loopDel .loopDel env.loopDelOk "loop_dev" s with ⟨h, -⟩ | ⟨h, -⟩
  · simp only [runFromLoopDel, h, finishRun]
    refine ⟨traceOK_append hT (traceOK_other (List.Subset.refl _) (by decide)),
      Or.inr (Or.inr ⟨rfl, rfl, rfl, v, ?_, hv⟩)⟩
    rw [hNew]
    simp [dictKeys, dictPop]
  · simp only [runFromLoopDel, h, exit_script]
    refine ⟨traceOK_append hT (traceOK_other (List.Subset.refl _) (by decide)),
      Or.inl ⟨.loopDel, rfl, rfl, rfl, ⟨s.new, rfl, ?_⟩, ?_⟩⟩
    · rw [hNew]; simp [dictKeys, upKeys]
    · exact List.append_subset.mpr ⟨List.Subset.trans hS (by decide), by decide⟩

lemma runFromUmntRoot_good (env : RunEnv) (old : StatusDict) (s : PipeSt) (v w : SVal)
    (hNew : s.new = [("img_file", v), ("loop_dev", w), ("loop_dev_fmt", SVal.vBool true),
      ("mount_root", SVal.vBool true), ("debootstrap", SVal.vBool true)])
    (hv : "img_file" ∈ dictKeys old → v = (dictGet old "img_file").getD (SVal.vStr ""))
    (hT : TraceOK old s.trace) (hS : s.trace ⊆ actsUpTo .umntBoot) :
    TraceOK old (runFromUmntRoot env old s).trace ∧
      GoodOutcome env old (runFromUmntRoot env old s) := by
  rcases stTeardown_char .umountRoot .umntRoot env.umountRootOk "mount_root" s with
    ⟨h, -⟩ | ⟨h, -⟩
  · simp only [runFromUmntRoot, h]
    refine runFromLoopDel_good env old _ v w ?_ hv
      (traceOK_append hT (traceOK_other (List.Subset.refl _) (by decide)))
      (List.append_subset.mpr ⟨List.Subset.trans hS (by decide), by decide⟩)
    rw [hNew]
    simp [dictKeys, dictPop]
  · simp only [runFromUmntRoot, h, exit_script]
    refine ⟨traceOK_append hT (traceOK_other (List.Subset.refl _) (by decide)),
      Or.inl ⟨.umntRoot, rfl, rfl, rfl, ⟨s.new, rfl, ?_⟩, ?_⟩⟩
    · rw [hNew]; simp [dictKeys, upKeys]
    · exact List.append_subset.mpr ⟨List.Subset.trans hS (by decide), by decide⟩

lemma runFromUmntBoot_good (env : RunEnv) (old : StatusDict) (s : PipeSt) (v w : SVal)
    (hNew : s.new = [("img_file", v), ("loop_dev", w), ("loop_dev_fmt", SVal.vBool true),
      ("mount_root", SVal.vBool true), ("mount_boot", SVal.vBool true),
      ("debootstrap", SVal.vBool true)])
    (hv : "img_file" ∈ dictKeys old → v = (dictGet old "img_file").getD (SVal.vStr ""))
    (hT : TraceOK old s.trace) (hS : s.trace ⊆ actsUpTo .cfgApt) :
    TraceOK old (runFromUmntBoot env old s).trace ∧
      GoodOutcome env old (runFromUmntBoot env old s) := by
  rcases stTeardown_char .umountBoot .umntBoot env.umountBootOk "mount_boot" s with
    ⟨h, -⟩ | ⟨h, -⟩
  · simp only [runFromUmntBoot, h]
    refine runFromUmntRoot_good env old _ v w ?_ hv
      (traceOK_append hT (traceOK_other (List.Subset.refl _) (by decide)))
      (List.append_subset.mpr ⟨List.Subset.trans hS (by decide), by decide⟩)
    rw [hNew]
    simp [dictKeys, dictPop]
  · simp only [runFromUmntBoot, h, exit_script]
    refine ⟨traceOK_append hT (traceOK_other (List.Subset.refl _) (by decide)),
      Or.inl ⟨.umntBoot, rfl, rfl, rfl, ⟨s.new, rfl, ?_⟩, ?_⟩⟩
    · rw [hNew]; simp [dictKeys, upKeys]
    · exact List.append_subset.mpr ⟨List.Subset.trans hS (by decide), by decide⟩

lemma runFromCfgApt_good (env : RunEnv) (old : StatusDict) (s : PipeSt) (v w : SVal)
    (hNew : s.new = [("img_file", v), ("loop_dev", w), ("loop_dev_fmt", SVal.vBool true),
      ("mount_root", SVal.vBool true), ("mount_boot", SVal.vBool true),
      ("debootstrap", SVal.vBool true)])
    (hv : "img_file" ∈ dictKeys old → v = (dictGet old "img_file").getD (SVal.vStr ""))
    (hT : TraceOK old s.trace) (hS : s.trace ⊆ actsUpTo .cfgKbd) :
    TraceOK old (runFromCfgApt env old s).trace ∧
      GoodOutcome env old (runFromCfgApt env old s) := by
  rcases stCfg_char .cfgApt .cfgApt env.cfgAptOk s with ⟨h, -⟩ | ⟨h, -⟩
  · simp only [runFromCfgApt, h]
    exact runFromUmntBoot_good env old _ v w hNew hv
      (traceOK_append hT (traceOK_other (List.Subset.refl _) (by decide)))
      (List.append_subset.mpr ⟨List.Subset.trans hS (by decide), by decide⟩)
  · simp only [runFromCfgApt, h, exit_script]
    refine ⟨traceOK_append hT (traceOK_other (List.Subset.refl _) (by decide)),
      Or.inl ⟨.cfgApt, rfl, rfl, rfl, ⟨s.new, rfl, ?_⟩, ?_⟩⟩
    · rw [hNew]; simp [dictKeys, upKeys]
    · exact List.append_subset.mpr ⟨List.Subset.trans hS (by decide), by decide⟩

lemma runFromCfgKbd_good (env : RunEnv) (old : StatusDict) (s : PipeSt) (v w : SVal)
    (hNew : s.new = [("img_file", v), ("loop_dev", w), ("loop_dev_fmt", SVal.vBool true),
      ("mount_root", SVal.vBool true), ("mount_boot", SVal.vBool true),
      ("debootstrap", SVal.vBool true)])
    (hv : "img_file" ∈ dictKeys old → v = (dictGet old "img_file").getD (SVal.vStr ""))
    (hT : TraceOK old s.trace) (hS : s.trace ⊆ actsUpTo .cfgLocale) :
    TraceOK old (runFromCfgKbd env old s).trace ∧
      GoodOutcome env old (runFromCfgKbd env old s) := by
  rcases stCfg_char .cfgKeyboard .cfgKbd env.cfgKeyboardOk s with ⟨h, -⟩ | ⟨h, -⟩
  · simp only [runFromCfgKbd, h]
    exact runFromCfgApt_good env old _ v w hNew hv
      (traceOK_append hT (traceOK_other (List.Subset.refl _) (by decide)))
      (List.append_subset.mpr ⟨List.Subset.trans hS (by decide), by decide⟩)
  · simp only [runFromCfgKbd, h, exit_script]
    refine ⟨traceOK_append hT (traceOK_other (List.Subset.refl _) (by decide)),
      Or.inl ⟨.cfgKbd, rfl, rfl, rfl, ⟨s.new, rfl, ?_⟩, ?_⟩⟩
    · rw [hNew]; simp [dictKeys, upKeys]
    · exact List.append_subset.mpr ⟨List.Subset.trans hS (by decide), by decide⟩

lemma runFromCfgLocale_good (env : RunEnv) (old : StatusDict) (s : PipeSt) (v w : SVal)
    (hNew : s.new = [("img_file", v), ("loop_dev", w), ("loop_dev_fmt", SVal.vBool true),
      ("mount_root", SVal.vBool true), ("mount_boot", SVal.vBool true),
      ("debootstrap", SVal.vBool true)])
    (hv : "img_file" ∈ dictKeys old → v = (dictGet old "img_file").getD (SVal.vStr ""))
    (hT : TraceOK old s.trace) (hS : s.trace ⊆ actsUpTo .cfgHost) :
    TraceOK old (runFromCfgLocale env old s).trace ∧
      GoodOutcome env old (runFromCfgLocale env old s) := by
  rcases stCfg_char .cfgLocale .cfgLocale env.cfgLocaleOk s with ⟨h, -⟩ | ⟨h, -⟩
  · simp only [runFromCfgLocale, h]
    exact runFromCfgKbd_good env old _ v w hNew hv
      (traceOK_append hT (traceOK_other (List.Subset.refl _) (by decide)))
      (List.append_subset.mpr ⟨List.Subset.trans hS (by decide), by decide⟩)
  · simp only [runFromCfgLocale, h, exit_script]
    refine ⟨traceOK_append hT (traceOK_other (List.Subset.refl _) (by decide)),
      Or.inl ⟨.cfgLocale, rfl, rfl, rfl, ⟨s.new, rfl, ?_⟩, ?_⟩⟩
    · rw [hNew]; simp [dictKeys, upKeys]
    · exact List.append_subset.mpr ⟨List.Subset.trans hS (by decide), by decide⟩

lemma runFromCfgHost_good (env : RunEnv) (old : StatusDict) (s : PipeSt) (v w : SVal)
    (hNew : s.new = [("img_file", v), ("loop_dev", w), ("loop_dev_fmt", SVal.vBool true),
      ("mount_root", SVal.vBool true), ("mount_boot", SVal.vBool true),
      ("debootstrap", SVal.vBool true)])
    (hv : "img_file" ∈ dictKeys old → v = (dictGet old "img_file").getD (SVal.vStr ""))
    (hT : TraceOK old s.trace) (hS : s.trace ⊆ actsUpTo .deboot) :
    TraceOK old (runFromCfgHost env old s).trace ∧
      GoodOutcome env old (runFromCfgHost env old s) := by
  rcases stCfg_char .cfgHostname .cfgHost env.cfgHostnameOk s with ⟨h, -⟩ | ⟨h, -⟩
  · simp only [runFromCfgHost, h]
    exact runFromCfgLocale_good env old _ v w hNew hv
      (traceOK_append hT (traceOK_other (List.Subset.refl _) (by decide)))
      (List.append_subset.mpr ⟨List.Subset.trans hS (by decide), by decide⟩)
  · simp only [runFromCfgHost, h, exit_script]
    refine ⟨traceOK_append hT (traceOK_other (List.Subset.refl _) (by decide)),
      Or.inl ⟨.cfgHost, rfl, rfl, rfl, ⟨s.new, rfl, ?_⟩, ?_⟩⟩
    · rw [hNew]; simp [dictKeys, upKeys]
    · exact List.append_subset.mpr ⟨List.Subset.trans hS (by decide), by decide⟩

lemma runFromDeboot_good (env : RunEnv) (old : StatusDict) (s : PipeSt) (v w : SVal)
    (hNew : s.new = [("img_file", v), ("loop_dev", w), ("loop_dev_fmt", SVal.vBool true),
      ("mount_root", SVal.vBool true), ("mount_boot", SVal.vBool true)])
    (hv : "img_file" ∈ dictKeys old → v = (dictGet old "img_file").getD (SVal.vStr ""))
    (hT : TraceOK old s.trace) (hS : s.trace ⊆ actsUpTo .mountBoot) :
    TraceOK old (runFromDeboot env old s).trace ∧
      GoodOutcome env old (runFromDeboot env old s) := by
  rcases stDeboot_char env old s with ⟨t, h, hs, hk⟩ | ⟨h, hm, -⟩
  · simp only [runFromDeboot, h]
    refine runFromCfgHost_good env old _ v w ?_ hv
      (traceOK_append hT (traceOK_deboot hs hk))
      (List.append_subset.mpr ⟨List.Subset.trans hS (by decide),
        List.Subset.trans hs (by decide)⟩)
    rw [hNew]
    simp [dictInsert]
  · simp only [runFromDeboot, h, exit_script]
    refine ⟨traceOK_append hT (traceOK_deboot (List.Subset.refl _) (fun h' => absurd h' hm)),
      Or.inl ⟨.deboot, rfl, rfl, rfl, ⟨s.new, rfl, ?_⟩, ?_⟩⟩
    · rw [hNew]; simp [dictKeys, upKeys]
    · exact List.append_subset.mpr ⟨List.Subset.trans hS (by decide), by decide⟩

lemma runFromMountBoot_good (env : RunEnv) (old : StatusDict) (s : PipeSt) (v w : SVal)
    (hNew : s.new = [("img_file", v), ("loop_dev", w), ("loop_dev_fmt", SVal.vBool true),
      ("mount_root", SVal.vBool true)])
    (hv : "img_file" ∈ dictKeys old → v = (dictGet old "img_file").getD (SVal.vStr ""))
    (hT : TraceOK old s.trace) (hS : s.trace ⊆ actsUpTo .mountRoot) :
    TraceOK old (runFromMountBoot env old s).trace ∧
      GoodOutcome env old (runFromMountBoot env old s) := by
  rcases stMountBoot_char env old s with ⟨t, h, hs, hk⟩ | ⟨h, hm, -⟩
  · simp only [runFromMountBoot, h]
    refine runFromDeboot_good env old _ v w ?_ hv
      (traceOK_append hT (traceOK_mountBoot hs hk))
      (List.append_subset.mpr ⟨List.Subset.trans hS (by decide),
        List.Subset.trans hs (by decide)⟩)
    rw [hNew]
    simp [dictInsert]
  · simp only [runFromMountBoot, h, exit_script]
    refine ⟨traceOK_append hT (traceOK_mountBoot (List.Subset.refl _) (fun h' => absurd h' hm)),
      Or.inl ⟨.mountBoot, rfl, rfl, rfl, ⟨s.new, rfl, ?_⟩, ?_⟩⟩
    · rw [hNew]; simp [dictKeys, upKeys]
    · exact List.append_subset.mpr ⟨List.Subset.trans hS (by decide), by decide⟩

lemma runFromMakeDirs_good (env : RunEnv) (old : StatusDict) (s : PipeSt) (v w : SVal)
    (hNew : s.new = [("img_file", v), ("loop_dev", w), ("loop_dev_fmt", SVal.vBool true),
      ("mount_root", SVal.vBool true)])
    (hv : "img_file" ∈ dictKeys old → v = (dictGet old "img_file").getD (SVal.vStr ""))
    (hT : TraceOK old s.trace) (hS : s.trace ⊆ actsUpTo .mountRoot) :
    TraceOK old (runFromMakeDirs env old s).trace ∧
      GoodOutcome env old (runFromMakeDirs env old s) := by
  rcases stMakeDirs_char env s with ⟨h, -⟩ | ⟨h, hmk⟩
  · simp only [runFromMakeDirs, h]
    exact runFromMountBoot_good env old s v w hNew hv hT hS
  · simp only [runFromMakeDirs, h]
    exact ⟨hT, Or.inr (Or.inl ⟨rfl, rfl, rfl, rfl, hmk⟩)⟩

lemma runFromMountRoot_good (env : RunEnv) (old : StatusDict) (s : PipeSt) (v w : SVal)
    (hNew : s.new = [("img_file", v), ("loop_dev", w), ("loop_dev_fmt", SVal.vBool true)])
    (hv : "img_file" ∈ dictKeys old → v = (dictGet old "img_file").getD (SVal.vStr ""))
    (hT : TraceOK old s.trace) (hS : s.trace ⊆ actsUpTo .loopFmt) :
    TraceOK old (runFromMountRoot env old s).trace ∧
      GoodOutcome env old (runFromMountRoot env old s) := by
  rcases stMountRoot_char env old s with ⟨t, h, hs, hk⟩ | ⟨h, hm, -⟩
  · simp only [runFromMountRoot, h]
    refine runFromMakeDirs_good env old _ v w ?_ hv
      (traceOK_append hT (traceOK_mountRoot hs hk))
      (List.append_subset.mpr ⟨List.Subset.trans hS (by decide),
        List.Subset.trans hs (by decide)⟩)
    rw [hNew]
    simp [dictInsert]
  · simp only [runFromMountRoot, h, exit_script]
    refine ⟨traceOK_append hT (traceOK_mountRoot (List.Subset.refl _) (fun h' => absurd h' hm)),
      Or.inl ⟨.mountRoot, rfl, rfl, rfl, ⟨s.new, rfl, ?_⟩, ?_⟩⟩
    · rw [hNew]; simp [dictKeys, upKeys]
    · exact List.append_subset.mpr ⟨List.Subset.trans hS (by decide), by decide⟩

lemma runFromLoopFmt_good (env : RunEnv) (old : StatusDict) (s : PipeSt) (v w : SVal)
    (hNew : s.new = [("img_file", v), ("loop_dev", w)])
    (hv : "img_file" ∈ dictKeys old → v = (dictGet old "img_file").getD (SVal.vStr ""))
    (hT : TraceOK old s.trace) (hS : s.trace ⊆ actsUpTo .loopDev) :
    TraceOK old (runFromLoopFmt env old s).trace ∧
      GoodOutcome env old (runFromLoopFmt env old s) := by
  rcases stLoopFmt_char env old s with ⟨t, h, hs, hk⟩ | ⟨h, hm, -⟩
  · simp only [runFromLoopFmt, h]
    refine runFromMountRoot_good env old _ v w ?_ hv
      (traceOK_append hT (traceOK_format hs hk))
      (List.append_subset.mpr ⟨List.Subset.trans hS (by decide),
        List.Subset.trans hs (by decide)⟩)
    rw [hNew]
    simp [dictInsert]
  · simp only [runFromLoopFmt, h, exit_script]
    refine ⟨traceOK_append hT (traceOK_format (List.Subset.refl _) (fun h' => absurd h' hm)),
      Or.inl ⟨.loopFmt, rfl, rfl, rfl, ⟨s.new, rfl, ?_⟩, ?_⟩⟩
    · rw [hNew]; simp [dictKeys, upKeys]
    · exact List.append_subset.mpr ⟨List.Subset.trans hS (by decide), by decide⟩

lemma runFromLoopDev_good (env : RunEnv) (old : StatusDict) (s : PipeSt) (v : SVal)
    (hNew : s.new = [("img_file", v)])
    (hv : "img_file" ∈ dictKeys old → v = (dictGet old "img_file").getD (SVal.vStr ""))
    (hT : TraceOK old s.trace) (hS : s.trace ⊆ actsUpTo .imgFile) :
    TraceOK old (runFromLoopDev env old s).trace ∧
      GoodOutcome env old (runFromLoopDev env old s) := by
  rcases stLoopDev_char env old s with ⟨w, t, h, hs, hk⟩ | ⟨h, hm, -⟩
  · simp only [runFromLoopDev, h]
    refine runFromLoopFmt_good env old _ v w ?_ hv
      (traceOK_append hT (traceOK_loopCreate hs hk))
      (List.append_subset.mpr ⟨List.Subset.trans hS (by decide),
        List.Subset.trans hs (by decide)⟩)
    rw [hNew]
    simp [dictInsert]
  · simp only [runFromLoopDev, h, exit_script]
    refine ⟨traceOK_append hT (traceOK_loopCreate (List.Subset.refl _) (fun h' => absurd h' hm)),
      Or.inl ⟨.loopDev, rfl, rfl, rfl, ⟨s.new, rfl, ?_⟩, ?_⟩⟩
    · rw [hNew]; simp [dictKeys, upKeys]
    · exact List.append_subset.mpr ⟨List.Subset.trans hS (by decide), by decide⟩

/-- Every run of `main` satisfies the resume property on its trace and has
one of the three characterized outcomes. -/
lemma runMain_cases (env : RunEnv) (old : StatusDict) :
    TraceOK old (runMain env old).trace ∧ GoodOutcome env old (runMain env old) := by
  rcases stImgFile_char env old ⟨[], []⟩ with ⟨v, t, h, hs, hk⟩ | ⟨h, hm, -⟩
  · simp only [runMain, h]
    refine runFromLoopDev_good env old _ v ?_ (fun h' => (hk h').2)
      (traceOK_append (traceOK_nil old) (traceOK_createImg hs (fun h' => (hk h').1)))
      (List.append_subset.mpr ⟨List.nil_subset _, hs⟩)
    simp [dictInsert]
  · simp only [runMain, h, exit_script]
    refine ⟨traceOK_append (traceOK_nil old)
        (traceOK_createImg (List.Subset.refl _) (fun h' => absurd h' hm)),
      Or.inl ⟨.imgFile, rfl, rfl, rfl, ⟨[], rfl, rfl⟩, ?_⟩⟩
    exact List.append_subset.mpr ⟨List.nil_subset _, by decide⟩

/- ### Claim theorems -/

/-- An environment in which every external action succeeds. -/
def envAllOk : RunEnv :=
  ⟨true, some "/dev/loop0", true, true, true, true, true, true, true, true,
   true, true, true, true⟩

/-- All actions succeed except the `umount_root` command. -/
def envUmntRootFail : RunEnv := { envAllOk with umountRootOk := false }

/-- All actions succeed except `os.makedirs("/mnt/boot/firmware", ...)`. -/
def envMakeDirsFail : RunEnv := { envAllOk with makedirsOk := false }

/-- All actions succeed except the hostname configuration. -/
def envCfgHostFail : RunEnv := { envAllOk with cfgHostnameOk := false }

/-- A prior snapshot in which every keyed stage is recorded as done. -/
def old6 : StatusDict :=
  [("img_file", .vStr "test.img"), ("loop_dev", .vStr "/dev/loop0"),
   ("loop_dev_fmt", .vBool true), ("mount_root", .vBool true),
   ("mount_boot", .vBool true), ("debootstrap", .vBool true)]

/-- C1: Idempotent resume.  For every environment and every snapshot loaded
at pipeline start, each stage whose completion key is present in that prior
snapshot never has its action executed in the run -- the precondition is
checked against the prior snapshot, so this holds regardless of how the
in-memory snapshot evolves during the run. -/
theorem idempotent_resume (env : RunEnv) (old : StatusDict) :
    ("img_file" ∈ dictKeys old → StageAct.createImg ∉ (runMain env old).trace) ∧
    ("loop_dev" ∈ dictKeys old → StageAct.loopCreate ∉ (runMain env old).trace) ∧
    ("loop_dev_fmt" ∈ dictKeys old → StageAct.format ∉ (runMain env old).trace) ∧
    ("mount_root" ∈ dictKeys old → StageAct.mountRoot ∉ (runMain env old).trace) ∧
    ("mount_boot" ∈ dictKeys old → StageAct.mountBoot ∉ (runMain env old).trace) ∧
    ("debootstrap" ∈ dictKeys old → StageAct.deboot ∉ (runMain env old).trace) :=
  (runMain_cases env old).1

/-- C1, witness: with all six keys recorded in the prior snapshot, none of
the six keyed actions runs. -/
theorem idempotent_resume_witness :
    StageAct.createImg ∉ (runMain envAllOk old6).trace ∧
    StageAct.loopCreate ∉ (runMain envAllOk old6).trace ∧
    StageAct.format ∉ (runMain envAllOk old6).trace ∧
    StageAct.mountRoot ∉ (runMain envAllOk old6).trace ∧
    StageAct.mountBoot ∉ (runMain envAllOk old6).trace ∧
    StageAct.deboot ∉ (runMain envAllOk old6).trace := by
  have h := idempotent_resume envAllOk old6
  exact ⟨h.1 (by decide), h.2.1 (by decide), h.2.2.1 (by decide),
    h.2.2.2.1 (by decide), h.2.2.2.2.1 (by decide), h.2.2.2.2.2 (by decide)⟩

/-- C2, counterexample: start from an empty snapshot with every action
succeeding except `umount_root`.  The `mount_boot` stage completed before
the failing stage (its action is in the trace), yet the snapshot persisted
at exit has no `mount_boot` entry -- the preceding successful `umount_boot`
stage popped it -- so the persisted snapshot does NOT contain exactly the
stages completed before the failing stage. -/
theorem fail_fast_counterexample :
    (runMain envUmntRootFail []).failed = some Stage.umntRoot ∧
    (runMain envUmntRootFail []).code = 1 ∧
    StageAct.mountBoot ∈ (runMain envUmntRootFail []).trace ∧
    ∀ st ∈ (runMain envUmntRootFail []).saves, "mount_boot" ∉ dictKeys st := by
  decide

/-- C2 (amended): when the run fails at stage `k`, the exit code is 1,
exactly one snapshot is saved, its keys are exactly the completion markers
of keyed stages before `k` MINUS the markers already cleared by teardown
stages that succeeded before `k` (that is `upKeys k`), it has no entry for
stage `k` itself, and no action of any later stage is ever invoked. -/
theorem fail_fast_amended (env : RunEnv) (old : StatusDict) (k : Stage)
    (h : (runMain env old).failed = some k) :
    (runMain env old).code = 1 ∧
    (∃ st, (runMain env old).saves = [st] ∧ dictKeys st = upKeys k ∧
      ∀ key, stageKey k = some key → key ∉ dictKeys st) ∧
    (∀ j : Stage, stageIdx k < stageIdx j → actOf j ∉ (runMain env old).trace) := by
  rcases (runMain_cases env old).2 with
    ⟨k', hf, hc, -, ⟨st, hsv, hkeys⟩, hsub⟩ | ⟨hf, -, -, -, -⟩ | ⟨hf, -, -, -⟩
  · rw [hf] at h
    injection h with h
    subst h
    refine ⟨hc, ⟨st, hsv, hkeys, ?_⟩, ?_⟩
    · intro key hk
      rw [hkeys]
      cases k' <;> simp [stageKey] at hk <;> subst hk <;> decide
    · intro j hj hmem
      have hd : ∀ a b : Stage, stageIdx a < stageIdx b → actOf b ∉ actsUpTo a := by
        decide
      exact hd k' j hj (hsub hmem)
  · rw [hf] at h; exact Option.noConfusion h
  · rw [hf] at h; exact Option.noConfusion h

/-- C2 (amended), witness: a run failing at the hostname-configuration
stage. -/
theorem fail_fast_amended_witness :
    (runMain envCfgHostFail []).code = 1 ∧
    (∃ st, (runMain envCfgHostFail []).saves = [st] ∧
      dictKeys st = upKeys Stage.cfgHost ∧
      ∀ key, stageKey Stage.cfgHost = some key → key ∉ dictKeys st) ∧
    (∀ j : Stage, stageIdx Stage.cfgHost < stageIdx j →
      actOf j ∉ (runMain envCfgHostFail []).trace) :=
  fail_fast_amended envCfgHostFail [] Stage.cfgHost (by decide)

/-- C3, counterexample: when `os.makedirs` fails, the run returns exit
code 1 directly (line 421), bypassing `exit_script`, so NO snapshot is
saved in that run -- `save` is not attempted exactly once on every path. -/
theorem save_once_counterexample :
    (runMain envMakeDirsFail []).code = 1 ∧
    (runMain envMakeDirsFail []).saves = [] := by
  decide

/-- C3 (amended): on every run in which the boot-mount directory creation
does not fail, `save_status` is attempted exactly once, at the point the
run exits; the `os.makedirs` failure path is the single exception, exiting
non-zero without saving. -/
theorem save_once_amended (env : RunEnv) (old : StatusDict)
    (h : env.makedirsOk = true) : (runMain env old).saves.length = 1 := by
  rcases (runMain_cases env old).2 with
    ⟨k, -, -, -, ⟨st, hsv, -⟩, -⟩ | ⟨-, -, -, -, hmk⟩ | ⟨-, -, -, v, hsv, -⟩
  · rw [hsv]; rfl
  · rw [h] at hmk; exact Bool.noConfusion hmk
  · rw [hsv]; rfl

/-- C3 (amended), witness. -/
theorem save_once_amended_witness : (runMain envAllOk []).saves.length = 1 :=
  save_once_amended envAllOk [] rfl

/-- C6: Clearing transient state.  Every snapshot saved by a fully
successful run (exit code 0) carries no `loop_dev`, `mount_root` or
`mount_boot` marker -- these are popped when the corresponding teardown
stages succeed -- while the steady `img_file` entry is retained. -/
theorem clear_transients (env : RunEnv) (old : StatusDict)
    (h : (runMain env old).code = 0) :
    ∀ st ∈ (runMain env old).saves,
      "loop_dev" ∉ dictKeys st ∧ "mount_root" ∉ dictKeys st ∧
      "mount_boot" ∉ dictKeys st ∧ "img_file" ∈ dictKeys st := by
  rcases (runMain_cases env old).2 with
    ⟨k, -, hc, -, -, -⟩ | ⟨-, -, hc, -, -⟩ | ⟨-, -, -, v, hsv, -⟩
  · rw [hc] at h; simp at h
  · rw [hc] at h; simp at h
  · rw [hsv]
    intro st hst
    simp only [List.mem_singleton] at hst
    subst hst
    exact ⟨by simp [dictKeys], by simp [dictKeys], by simp [dictKeys],
      by simp [dictKeys]⟩

/-- C6, witness: the snapshot saved by a fully successful run from an empty
snapshot has no transient markers and keeps the image-file entry. -/
theorem clear_transients_witness :
    "loop_dev" ∉ dictKeys [("img_file", SVal.vStr "test.img"),
      ("loop_dev_fmt", SVal.vBool true), ("debootstrap", SVal.vBool true)] ∧
    "mount_root" ∉ dictKeys [("img_file", SVal.vStr "test.img"),
      ("loop_dev_fmt", SVal.vBool true), ("debootstrap", SVal.vBool true)] ∧
    "mount_boot" ∉ dictKeys [("img_file", SVal.vStr "test.img"),
      ("loop_dev_fmt", SVal.vBool true), ("debootstrap", SVal.vBool true)] ∧
    "img_file" ∈ dictKeys [("img_file", SVal.vStr "test.img"),
      ("loop_dev_fmt", SVal.vBool true), ("debootstrap", SVal.vBool true)] :=
  clear_transients envAllOk [] (by decide)
    [("img_file", SVal.vStr "test.img"), ("loop_dev_fmt", SVal.vBool true),
     ("debootstrap", SVal.vBool true)] (by decide)

/-- C5, counterexample: a prior snapshot satisfying every keyed stage's
precondition, with all actions succeeding.  The run exits 0, yet the
snapshot written at the end is NOT equal to the snapshot loaded at the
start: skipped stages repopulate `new_status` and the teardown stages then
pop the transient markers, so the saved snapshot drops `loop_dev`,
`mount_root` and `mount_boot` (and the dead `len == 0` fallback of line 479
never fires, because `img_file` is always recorded). -/
theorem noop_persistence_counterexample :
    ("img_file" ∈ dictKeys old6 ∧ "loop_dev" ∈ dictKeys old6 ∧
     "loop_dev_fmt" ∈ dictKeys old6 ∧ "mount_root" ∈ dictKeys old6 ∧
     "mount_boot" ∈ dictKeys old6 ∧ "debootstrap" ∈ dictKeys old6) ∧
    (runMain envAllOk old6).code = 0 ∧
    (runMain envAllOk old6).saves ≠ [old6] ∧
    (runMain envAllOk old6).saves ≠ [[]] := by
  decide

/-- C5 (amended): when every keyed stage's completion key is present in the
prior snapshot and all executed actions (directory creation, the four
configuration writes, the three teardowns) succeed, the run exits 0 and
writes exactly one snapshot: the `img_file` entry with its prior value plus
the two steady completion flags `loop_dev_fmt` and `debootstrap` -- in
particular not an empty mapping, but also not the full prior snapshot,
whose transient markers (and any other entries) are dropped. -/
theorem noop_persistence_amended (env : RunEnv) (old : StatusDict)
    (h1 : "img_file" ∈ dictKeys old) (h2 : "loop_dev" ∈ dictKeys old)
    (h3 : "loop_dev_fmt" ∈ dictKeys old) (h4 : "mount_root" ∈ dictKeys old)
    (h5 : "mount_boot" ∈ dictKeys old) (h6 : "debootstrap" ∈ dictKeys old)
    (hmk : env.makedirsOk = true)
    (hch : env.cfgHostnameOk = true) (hcl : env.cfgLocaleOk = true)
    (hck : env.cfgKeyboardOk = true) (hca : env.cfgAptOk = true)
    (hub : env.umountBootOk = true) (hur : env.umountRootOk = true)
    (hld : env.loopDelOk = true) :
    (runMain env old).code = 0 ∧
    (runMain env old).saves =
      [[("img_file", (dictGet old "img_file").getD (SVal.vStr "")),
        ("loop_dev_fmt", SVal.vBool true), ("debootstrap", SVal.vBool true)]] := by
  simp only [dictKeys] at h1 h2 h3 h4 h5 h6
  simp [runMain, runFromLoopDev, runFromLoopFmt, runFromMountRoot, runFromMakeDirs,
    runFromMountBoot, runFromDeboot, runFromCfgHost, runFromCfgLocale, runFromCfgKbd,
    runFromCfgApt, runFromUmntBoot, runFromUmntRoot, runFromLoopDel,
    stImgFile, stLoopDev, stLoopFmt, stMountRoot, stMakeDirs, stMountBoot, stDeboot,
    stCfg, stTeardown, finishRun, exit_script, override,
    h1, h2, h3, h4, h5, h6, hmk, hch, hcl, hck, hca, hub, hur, hld,
    dictInsert, dictKeys, dictPop]

/-- C5 (amended), witness. -/
theorem noop_persistence_amended_witness :
    (runMain envAllOk old6).code = 0 ∧
    (runMain envAllOk old6).saves =
      [[("img_file", (dictGet old6 "img_file").getD (SVal.vStr "")),
        ("loop_dev_fmt", SVal.vBool true), ("debootstrap", SVal.vBool true)]] :=
  noop_persistence_amended envAllOk old6 (by decide) (by decide) (by decide)
    (by decide) (by decide) (by decide) rfl rfl rfl rfl rfl rfl rfl rfl

/-- C4, counterexample: `lib/common.py`'s `load_status` does not satisfy the
claim.  On unparsable text (here a read that succeeded, with the JSON
parser raising) the exception propagates out of the loader instead of
yielding an empty snapshot; on a missing or unreadable file it returns an
absent value, not an empty snapshot. -/
theorem corrupt_state_counterexample :
    common_load_status (some "]") (fun _ => Except.error JsonErr.parseError) =
      Except.error JsonErr.parseError ∧
    common_load_status none (fun _ => Except.error JsonErr.parseError) =
      Except.ok none := ⟨rfl, rfl⟩

/-- C4 (amended): the pipeline-start loading of `create_img.py` (its
`load_status` plus `main`'s dict type check) is total and, for every file
state other than a successfully parsed dictionary, yields the empty
snapshot; a warning is logged in each of those states except for a merely
missing file, which is silent. -/
theorem corrupt_state_amended (fr : FileRead)
    (h : ∀ d, fr ≠ FileRead.ok (JsonVal.jdict d)) :
    (pipelineLoad fr).1 = [] ∧
    ((pipelineLoad fr).2 = true ↔ fr ≠ FileRead.missing) := by
  cases fr with
  | missing => exact ⟨rfl, by simp [pipelineLoad, load_status, checkStatusType]⟩
  | readError => exact ⟨rfl, by simp [pipelineLoad, load_status, checkStatusType]⟩
  | ok j =>
      cases j
      case jdict d => exact absurd rfl (h d)
      all_goals exact ⟨rfl, by simp [pipelineLoad, load_status, checkStatusType]⟩

/-- C4 (amended), witness: an unreadable (or unparsable) status file loads
as the empty snapshot with a warning. -/
theorem corrupt_state_amended_witness :
    (pipelineLoad FileRead.readError).1 = [] ∧
    ((pipelineLoad FileRead.readError).2 = true ↔
      FileRead.readError ≠ FileRead.missing) :=
  corrupt_state_amended FileRead.readError (fun _ h => FileRead.noConfusion h)

/-- C7, counterexample: with a chroot requested, `run_cmd` can raise past
its own boundary: entering the chroot fails (unresolvable directory, or
`os.chroot` denied) and the exception propagates to the caller instead of a
success/failure signal. -/
theorem executor_counterexample :
    runCmd true (fun _ => none) ⟨0, 0⟩ ⟨0, "", ""⟩ false "/mnt" =
      Except.error OsErr.enoent ∧
    runCmd false (fun _ => some 5) ⟨0, 0⟩ ⟨0, "", ""⟩ true "/mnt" =
      Except.error OsErr.eperm := ⟨rfl, rfl⟩

/-- C7 (amended): without a chroot request `run_cmd` never raises and
returns the uniform signal; whenever it returns at all, the signal is
`cmdSignal`: on non-zero exit an absent value (never partial output) or
`False`, on success the stripped stdout or `True`.  It can raise only out
of the chroot entry. -/
theorem executor_amended (canChroot : Bool) (resolve : String → Option Nat)
    (s : ProcState) (proc : ProcResult) (ro : Bool) :
    runCmd canChroot resolve s proc ro "" = Except.ok (cmdSignal proc ro, s) ∧
    (∀ chroot r st, runCmd canChroot resolve s proc ro chroot = Except.ok (r, st) →
      r = cmdSignal proc ro) ∧
    (proc.returncode ≠ 0 →
      cmdSignal proc true = .rOutput none ∧ cmdSignal proc false = .rBool false) ∧
    (proc.returncode = 0 →
      cmdSignal proc true = .rOutput (some proc.stdout.trim) ∧
      cmdSignal proc false = .rBool true) := by
  refine ⟨by simp [runCmd], ?_, ?_, ?_⟩
  · intro chroot r st h
    unfold runCmd at h
    split at h
    · split at h
      · exact Except.noConfusion h
      · injection h with h1
        injection h1 with h2 h3
        exact h2.symm
    · injection h with h1
      injection h1 with h2 h3
      exact h2.symm
  · intro h
    simp [cmdSignal, h]
  · intro h
    simp [cmdSignal, h]

/-- C7 (amended), witness: a failing command with output capture and no
chroot returns an absent value without raising. -/
theorem executor_amended_witness :
    runCmd true (fun _ => some 3) ⟨0, 0⟩ ⟨1, "out", "err"⟩ true "" =
      Except.ok (cmdSignal ⟨1, "out", "err"⟩ true, (⟨0, 0⟩ : ProcState)) ∧
    cmdSignal ⟨1, "out", "err"⟩ true = RunCmdResult.rOutput none := by
  have h := executor_amended true (fun _ => some 3) ⟨0, 0⟩ ⟨1, "out", "err"⟩ true
  exact ⟨h.1, (h.2.2.1 (by decide)).1⟩

/-- C8, counterexample: a use of the chroot context in which `__enter__`
fails at `os.chroot` AFTER `os.chdir` already succeeded (e.g. run without
the chroot capability).  The with-statement aborts without running
`__exit__`, and the working directory is left switched to the target -- so
not every use of the context restores root AND working directory. -/
theorem chroot_restore_counterexample :
    (withChroot false (some 5) (fun st => (st, false)) ⟨1, 2⟩).1 =
      (⟨1, 5⟩ : ProcState) ∧
    (withChroot false (some 5) (fun st => (st, false)) ⟨1, 2⟩).2.1 =
      some OsErr.eperm ∧
    (⟨1, 5⟩ : ProcState).cwd ≠ (⟨1, 2⟩ : ProcState).cwd := ⟨rfl, rfl, by decide⟩

/-- C8 (amended): whenever entering the chroot succeeds, the original
filesystem root and working directory are restored on every exit path,
including when the enclosed body raises (the exception then propagates
after restoration) and whatever the body did to the process state; only a
failed entry can leave the working directory switched. -/
theorem chroot_restore_amended (canChroot : Bool) (target : Option Nat)
    (body : ProcState → ProcState × Bool) (s0 s1 : ProcState) (fd : Nat)
    (h : chrootEnter canChroot target s0 = .ok (s1, fd)) :
    withChroot canChroot target body s0 = (s0, none, (body s1).2) := by
  cases target with
  | none => simp [chrootEnter] at h
  | some d =>
      cases canChroot
      · simp [chrootEnter] at h
      · simp only [chrootEnter, if_pos] at h
        injection h with h1
        injection h1 with h2 h3
        subst h2
        subst h3
        simp [withChroot, chrootEnter, chrootExit]

/-- C8 (amended), witness: a body that raises and moves the working
directory; root and cwd are still restored and the exception propagates. -/
theorem chroot_restore_amended_witness :
    withChroot true (some 7) (fun st => ((⟨st.root, 9⟩ : ProcState), true)) ⟨1, 2⟩ =
      ((⟨1, 2⟩ : ProcState), none, true) :=
  chroot_restore_amended true (some 7)
    (fun st => ((⟨st.root, 9⟩ : ProcState), true)) ⟨1, 2⟩ ⟨7, 7⟩ 1 rfl

/-- C9: `configure_sshd` writes back exactly the text it read -- the
root-login substitution is computed and discarded (its result is never
bound), for EVERY substitution function, so the configuration text on disk
is unchanged whenever the file was readable. -/
theorem sshd_writes_original (sub : String → String) (readResult : Option String)
    (writeOk : Bool) (content : String) (h : readResult = some content) :
    configure_sshd sub readResult writeOk =
      Except.ok (writeOk, [⟨FILE_SSHD, content⟩]) := by
  subst h; rfl

/-- C9, witness: even when the substitution would have changed the text,
the original content is what gets written. -/
theorem sshd_writes_original_witness :
    configure_sshd (fun _ => "PermitRootLogin yes") (some "PermitRootLogin no")
      true = Except.ok (true, [⟨FILE_SSHD, "PermitRootLogin no"⟩]) ∧
    (fun _ => "PermitRootLogin yes") "PermitRootLogin no" ≠ "PermitRootLogin no" :=
  ⟨sshd_writes_original _ _ _ _ rfl, by decide⟩

/-- C10: when the shadow file cannot be read, `change_rootpw` performs no
write and returns `None` (the function body falls through), rather than the
boolean its interface promises; a boolean is returned exactly when the
shadow file was readable. -/
theorem change_rootpw_option_return (cryptFn : String → String) (passwd : String)
    (writeOk : Bool) :
    change_rootpw cryptFn passwd none writeOk = (none, []) ∧
    ∀ c : String, (change_rootpw cryptFn passwd (some c) writeOk).1 = some writeOk :=
  ⟨rfl, fun _ => rfl⟩
